import Mathlib

/-!
Verification development for the `eufy_robovac_s1_pro` Home Assistant
integration (file `custom_components/eufy_robovac_s1_pro/vacuum.py`).

The Python code is shallowly embedded below.  Dynamic values that may live
in the coordinator's DPS dictionary are modelled by `PyVal` (integers,
strings, byte blobs), the dictionary itself by an association list, base64
decoding by an executable `b64decode`, raised-and-caught exceptions by the
explicit result the enclosing handler produces, and device writes by a
`Transport` function that either accepts a write dictionary or fails with
an error message.
-/

set_option autoImplicit false

namespace EufyS1Pro

/-- A dynamic Python value as it can appear in the Tuya DPS dictionary or
as an argument to `decode_dps153_to_state` (which accepts `str`, `bytes`,
or anything else).  Bytes are lists of naturals below 256. -/
inductive PyVal where
  | vInt (n : Int)
  | vStr (s : String)
  | vBytes (b : List Nat)
  deriving DecidableEq, Repr

/-- Python truthiness for the values we model: `0`, `""` and `b""` are
falsy, everything else is truthy. -/
def PyVal.truthy : PyVal → Bool
  | .vInt n => n != 0
  | .vStr s => s != ""
  | .vBytes b => !b.isEmpty

/-- `isinstance(v, int) and v >= k`, the guard used by the error checks in
`activity` (vacuum.py:287) and `error_code` (vacuum.py:427). -/
def pyIsIntGE (v : PyVal) (k : Int) : Bool :=
  match v with
  | .vInt n => k ≤ n
  | _ => false

/-- Python `v == (n : int)` for a dynamic value: comparisons between a
string (or bytes) and an int are simply `False`. -/
def pyEqInt (v : PyVal) (n : Int) : Bool :=
  match v with
  | .vInt m => m == n
  | _ => false

/-- One hexadecimal digit, lower case. -/
def hexDigit (n : Nat) : Char :=
  if n < 10 then Char.ofNat (48 + n) else Char.ofNat (87 + n % 6)

/-- Two hexadecimal digits for one byte. -/
def hexByte (x : Nat) : String :=
  String.mk [hexDigit (x / 16 % 16), hexDigit (x % 16)]

/-- Python `str(v)`.  `str` of a string is the identity (no normalization,
no case folding); `str` of an int is its decimal form.  For bytes we use a
uniform hex-escape rendering of the `repr`; CPython prints printable ASCII
bytes literally instead, a difference nothing below depends on. -/
def pyStr : PyVal → String
  | .vInt n => toString n
  | .vStr s => s
  | .vBytes b => "b\x27" ++ String.join (b.map (fun x => "\\x" ++ hexByte x)) ++ "\x27"

/-- The coordinator's DPS dictionary: string keys to dynamic values.
Python dict truthiness (`if not self.coordinator.data`) is emptiness. -/
abbrev Dps := List (String × PyVal)

/-- `data.get(k)`: first binding of `k`, if any. -/
def Dps.get? (data : Dps) (k : String) : Option PyVal :=
  match data with
  | [] => none
  | (a, v) :: rest => if a = k then some v else Dps.get? rest k

/-- `data.get(k, default)`. -/
def Dps.getD (data : Dps) (k : String) (d : PyVal) : PyVal :=
  (data.get? k).getD d

/-! ## Base64 decoding (`base64.b64decode`)

Model of the standard-library decoder the vacuum code calls: characters
outside the base64 alphabet and the pad are discarded, the remaining
character count must be a multiple of four, pads may only close the final
quad.  Any failure is reported as `none`; the caller in
`decode_dps153_to_state` catches the corresponding `binascii.Error`. -/

/-- Value of one base64 alphabet character. -/
def b64val (c : Char) : Option Nat :=
  if 65 ≤ c.toNat ∧ c.toNat ≤ 90 then some (c.toNat - 65)
  else if 97 ≤ c.toNat ∧ c.toNat ≤ 122 then some (c.toNat - 97 + 26)
  else if 48 ≤ c.toNat ∧ c.toNat ≤ 57 then some (c.toNat - 48 + 52)
  else if c = '+' then some 62
  else if c = '/' then some 63
  else none

/-- Decode a run of base64 quads (pads only in the final quad). -/
def b64quads : List Char → Option (List Nat)
  | [] => some []
  | a :: b :: c :: d :: rest => do
    let va ← b64val a
    let vb ← b64val b
    if c = '=' then
      if d = '=' ∧ rest = [] then
        some [va * 4 + vb / 16]
      else none
    else do
      let vc ← b64val c
      if d = '=' then
        if rest = [] then some [va * 4 + vb / 16, vb % 16 * 16 + vc / 4]
        else none
      else do
        let vd ← b64val d
        let tail ← b64quads rest
        some ([va * 4 + vb / 16, vb % 16 * 16 + vc / 4, vc % 4 * 64 + vd] ++ tail)
  | _ => none

/-- `base64.b64decode` on a string, `none` when it raises. -/
def b64decode (s : String) : Option (List Nat) :=
  let kept := s.data.filter (fun c => (b64val c).isSome || c = '=')
  if kept.length % 4 = 0 then b64quads kept else none

/-! ## The DPS 153 status decoder -/

/-- The `RobovacState` enum of vacuum.py:53. -/
inductive RobovacState where
  | CLEANING
  | ROOM_CLEANING
  | PAUSED
  | RETURNING
  | DOCKED
  | ERROR
  | UNKNOWN
  deriving DecidableEq, Repr

/-- Body of `decode_dps153_to_state` once a byte sequence `decoded` is in
hand (vacuum.py:90-146).

Control flow of the source, traced exactly:
* line 91: `if len(decoded) < 3` returns `(UNKNOWN, "unknown")`;
* lines 95-96 bind `byte1` and `byte2`; **no line ever binds `byte0`**;
* line 106 evaluates `byte0 == 0x06 and ...`, which raises `NameError`
  (`byte0` is an undefined local), so every blob of length ≥ 3 jumps to
  the `except Exception` handler at line 144 and returns
  `(UNKNOWN, "error")`.  The rule table at lines 110-142 (cleaning,
  paused, returning, docked) and the helper `_get_docked_substatus` are
  unreachable from this function. -/
def decode_dps153_bytes (decoded : List Nat) : RobovacState × String :=
  if decoded.length < 3 then
    (RobovacState.UNKNOWN, "unknown")
  else
    (RobovacState.UNKNOWN, "error")

/-- `decode_dps153_to_state` (vacuum.py:64-146) on a dynamic value:
strings are base64-decoded first (a decode failure is caught at line 144
and yields `(UNKNOWN, "error")`); anything that is not a string is used
directly as the byte sequence, so a non-sequence input makes `len(...)`
raise `TypeError`, which the same handler turns into
`(UNKNOWN, "error")`. -/
def decode_dps153_to_state : PyVal → RobovacState × String
  | .vStr s =>
    match b64decode s with
    | none => (RobovacState.UNKNOWN, "error")
    | some decoded => decode_dps153_bytes decoded
  | .vBytes b => decode_dps153_bytes b
  | .vInt _ => (RobovacState.UNKNOWN, "error")

/-- Helper: the decoder can only ever classify a blob as `UNKNOWN`
(consequence of the unbound `byte0` at vacuum.py:106). -/
theorem decode_dps153_bytes_unknown (b : List Nat) :
    (decode_dps153_bytes b).1 = RobovacState.UNKNOWN := by
  unfold decode_dps153_bytes
  split <;> rfl

/-- Helper: `decode_dps153_to_state` always reports `UNKNOWN`. -/
theorem decode_dps153_to_state_unknown (v : PyVal) :
    (decode_dps153_to_state v).1 = RobovacState.UNKNOWN := by
  cases v with
  | vStr s =>
    simp only [decode_dps153_to_state]
    rcases h : b64decode s with _ | d <;>
      simp [h, decode_dps153_bytes_unknown]
  | vBytes b => exact decode_dps153_bytes_unknown b
  | vInt n => rfl

/-- C1: the spec claims that a blob starting `06 10 03` decodes to
`(ROOM_CLEANING, "cleaning")`.  On the code as written it does not: the
comparison `byte0 == 0x06` at vacuum.py:106 reads the never-assigned
local `byte0`, the resulting `NameError` is caught at line 144, and the
documented example blob `06 10 03 1a 02 08 01` decodes to
`(UNKNOWN, "error")` instead. -/
theorem decode_room_cleaning_blob_yields_unknown_error :
    decode_dps153_to_state (.vBytes [0x06, 0x10, 0x03, 0x1a, 0x02, 0x08, 0x01])
      = (RobovacState.UNKNOWN, "error") ∧
    decode_dps153_to_state (.vBytes [0x06, 0x10, 0x03, 0x1a, 0x02, 0x08, 0x01])
      ≠ (RobovacState.ROOM_CLEANING, "cleaning") := by
  constructor
  · rfl
  · decide

/-- C2: the spec claims the `byte[1]=0x0a, byte[2]=0x00, byte[3]=0x10,
byte[4]=0x05` family decodes to `(CLEANING, "cleaning")`, flipping to
`(PAUSED, "paused")` when `len ≥ 7` and `byte[6]=0x02`.  The rule at
vacuum.py:110-123 encodes exactly that, but it is dead code: the
`NameError` on the unbound `byte0` at line 106 fires first, so both
shapes decode to `(UNKNOWN, "error")`. -/
theorem decode_whole_house_blobs_yield_unknown_error :
    decode_dps153_to_state (.vBytes [0x00, 0x0a, 0x00, 0x10, 0x05])
      = (RobovacState.UNKNOWN, "error") ∧
    decode_dps153_to_state (.vBytes [0x00, 0x0a, 0x00, 0x10, 0x05])
      ≠ (RobovacState.CLEANING, "cleaning") ∧
    decode_dps153_to_state (.vBytes [0x00, 0x0a, 0x00, 0x10, 0x05, 0x00, 0x02])
      = (RobovacState.UNKNOWN, "error") ∧
    decode_dps153_to_state (.vBytes [0x00, 0x0a, 0x00, 0x10, 0x05, 0x00, 0x02])
      ≠ (RobovacState.PAUSED, "paused") := by
  refine ⟨rfl, by decide, rfl, by decide⟩

/-- C3: the decoder is total.  For every input — base64 string (valid or
not), byte blob of any length and content, or a value of another type —
`decode_dps153_to_state` returns a defined `(state, substatus)` pair, and
the state is always an `UNKNOWN`-or-`DOCKED` fallback classification,
never a propagated fault.  Out-of-range byte accesses cannot occur: the
only byte reads are guarded by the `len(decoded) < 3` check (the deeper
reads of the rule table are unreachable, see `decode_dps153_bytes`). -/
theorem decode_total_unknown_or_docked (v : PyVal) :
    (decode_dps153_to_state v).1 = RobovacState.UNKNOWN ∨
    (decode_dps153_to_state v).1 = RobovacState.DOCKED :=
  Or.inl (decode_dps153_to_state_unknown v)

/-- C8: every blob shorter than three bytes is rejected by the length
check at vacuum.py:91 and decodes to `(UNKNOWN, "unknown")`. -/
theorem decode_short_blob_unknown (b : List Nat) (h : b.length < 3) :
    decode_dps153_to_state (.vBytes b) = (RobovacState.UNKNOWN, "unknown") := by
  unfold decode_dps153_to_state decode_dps153_bytes
  simp [h]

/-- Witness for C8 at the empty blob and a two-byte blob. -/
theorem decode_short_blob_unknown_witness :
    decode_dps153_to_state (.vBytes []) = (RobovacState.UNKNOWN, "unknown") ∧
    decode_dps153_to_state (.vBytes [0x06, 0x10]) = (RobovacState.UNKNOWN, "unknown") :=
  ⟨decode_short_blob_unknown [] (by decide),
   decode_short_blob_unknown [0x06, 0x10] (by decide)⟩

/-! ## The `activity` property and `error_code` -/

/-- The subset of Home Assistant's `VacuumActivity` enum the integration
uses. -/
inductive VacuumActivity where
  | CLEANING
  | DOCKED
  | ERROR
  | IDLE
  | PAUSED
  | RETURNING
  deriving DecidableEq, Repr

/-- Branch of `activity` taken when DPS "153" is truthy
(vacuum.py:293-322): map the decoded `RobovacState` to the reported
activity, updating the `_was_paused` flag in most arms. -/
def activity_from_dps153 (st : RobovacState) (was_paused : Bool) :
    Except Unit (Option VacuumActivity) × Bool :=
  match st with
  | RobovacState.CLEANING => (Except.ok (some VacuumActivity.CLEANING), false)
  | RobovacState.ROOM_CLEANING => (Except.ok (some VacuumActivity.CLEANING), false)
  | RobovacState.PAUSED => (Except.ok (some VacuumActivity.PAUSED), true)
  | RobovacState.RETURNING => (Except.ok (some VacuumActivity.RETURNING), false)
  | RobovacState.DOCKED => (Except.ok (some VacuumActivity.DOCKED), false)
  | RobovacState.ERROR => (Except.ok (some VacuumActivity.ERROR), was_paused)
  | RobovacState.UNKNOWN => (Except.ok (some VacuumActivity.IDLE), was_paused)

/-- Legacy fallback of `activity` when DPS "153" is unavailable
(vacuum.py:324-360): DPS "152" command echoes, then DPS 6/7 pairs, then
the battery check (whose `battery >= 95` raises `TypeError` when DPS "8"
is not a number — the `Except.error` outcome). -/
def activity_fallback (dps152 dps6 dps7 dps8 : PyVal) (was_paused : Bool) :
    Except Unit (Option VacuumActivity) × Bool :=
  if dps152 = PyVal.vStr "AggO" then (Except.ok (some VacuumActivity.CLEANING), false)
  else if dps152 = PyVal.vStr "AggN" then (Except.ok (some VacuumActivity.PAUSED), true)
  else if dps152 = PyVal.vStr "AggG" then (Except.ok (some VacuumActivity.RETURNING), false)
  else if pyEqInt dps6 2 && pyEqInt dps7 3 then (Except.ok (some VacuumActivity.CLEANING), false)
  else if pyEqInt dps6 3 && pyEqInt dps7 4 then (Except.ok (some VacuumActivity.PAUSED), true)
  else if pyEqInt dps6 1 && pyEqInt dps7 2 then (Except.ok (some VacuumActivity.RETURNING), false)
  else if pyEqInt dps6 0 && pyEqInt dps7 0 then
    match dps8 with
    | PyVal.vInt battery =>
      if 95 ≤ battery then (Except.ok (some VacuumActivity.DOCKED), was_paused)
      else (Except.ok (some VacuumActivity.IDLE), was_paused)
    | _ => (Except.error (), was_paused)
  else (Except.ok (some VacuumActivity.IDLE), was_paused)

/-- The `activity` property (vacuum.py:274-360).  Input: the coordinator
data dictionary and the current `_was_paused` shadow flag; output: the
reported activity (`Except.error ()` models the uncaught `TypeError` that
`battery >= 95` raises when DPS "8" is not a number, `Except.ok none`
the early `return None` for empty data) together with the value of
`_was_paused` after the property ran — the getter assigns the flag in
most of its classification branches.  The `_detected_state` and
`_substatus` attributes are write-only caches for logging and are not
modelled. -/
def activity (data : Dps) (was_paused : Bool) :
    Except Unit (Option VacuumActivity) × Bool :=
  if data = [] then (Except.ok none, was_paused)
  else if pyIsIntGE (data.getD "6" (.vInt 0)) 100 then
    (Except.ok (some VacuumActivity.ERROR), was_paused)
  else if (data.getD "153" (.vStr "")).truthy then
    activity_from_dps153 (decode_dps153_to_state (data.getD "153" (.vStr ""))).1 was_paused
  else
    activity_fallback (data.getD "152" (.vStr "")) (data.getD "6" (.vInt 0))
      (data.getD "7" (.vInt 0)) (data.getD "8" (.vInt 0)) was_paused

/-- The `error_code` property (vacuum.py:421-429): the decimal string of
DPS "6" when it holds an int ≥ 100, otherwise `None` (also for an empty
data dictionary). -/
def error_code (data : Dps) : Option String :=
  if data = [] then none
  else
    match data.get? "6" with
    | some v => if pyIsIntGE v 100 then some (pyStr v) else none
    | none => none

/-- Helper: the possible outcomes of the legacy fallback classification
and the flag each leaves behind. -/
theorem activity_fallback_cases (a b c d : PyVal) (flag : Bool) :
    activity_fallback a b c d flag = (Except.ok none, flag) ∨
    activity_fallback a b c d flag = (Except.ok (some VacuumActivity.ERROR), flag) ∨
    activity_fallback a b c d flag = (Except.ok (some VacuumActivity.CLEANING), false) ∨
    activity_fallback a b c d flag = (Except.ok (some VacuumActivity.PAUSED), true) ∨
    activity_fallback a b c d flag = (Except.ok (some VacuumActivity.RETURNING), false) ∨
    activity_fallback a b c d flag = (Except.ok (some VacuumActivity.DOCKED), flag) ∨
    activity_fallback a b c d flag = (Except.ok (some VacuumActivity.IDLE), flag) ∨
    activity_fallback a b c d flag = (Except.error (), flag) := by
  unfold activity_fallback
  split
  · simp
  split
  · simp
  split
  · simp
  split
  · simp
  split
  · simp
  split
  · simp
  split
  · split
    · split
      · simp
      · simp
    · simp
  · simp

/-- Helper: the eight possible outcomes of one `activity` poll, each
paired with the shadow-flag value it leaves behind. -/
theorem activity_cases (data : Dps) (flag : Bool) :
    activity data flag = (Except.ok none, flag) ∨
    activity data flag = (Except.ok (some VacuumActivity.ERROR), flag) ∨
    activity data flag = (Except.ok (some VacuumActivity.CLEANING), false) ∨
    activity data flag = (Except.ok (some VacuumActivity.PAUSED), true) ∨
    activity data flag = (Except.ok (some VacuumActivity.RETURNING), false) ∨
    activity data flag = (Except.ok (some VacuumActivity.DOCKED), flag) ∨
    activity data flag = (Except.ok (some VacuumActivity.IDLE), flag) ∨
    activity data flag = (Except.error (), flag) := by
  unfold activity
  split
  · simp
  split
  · simp
  split
  · rw [decode_dps153_to_state_unknown]
    simp [activity_from_dps153]
  · exact activity_fallback_cases _ _ _ _ flag

/-- C5 counterexample: the claim says the paused shadow flag is mutated
only by the command handlers and is read-only to the poll-driven status
classification.  In fact the `activity` getter itself assigns the flag:
polling a device whose DPS "152" equals the pause token `"AggN"` (and
whose DPS "153" is absent) flips the flag from `false` to `true` at
vacuum.py:336. -/
theorem activity_poll_mutates_shadow_flag :
    activity [("152", PyVal.vStr "AggN")] false
      = (Except.ok (some VacuumActivity.PAUSED), true) ∧
    (activity [("152", PyVal.vStr "AggN")] false).2 ≠ false := by
  refine ⟨rfl, by decide⟩

/-- C5 amended: the shadow flag is mutated by the poll-driven `activity`
classification as well as by the command handlers.  After a poll the flag
is `true` exactly when the poll classified the state as Paused, `false`
when it classified it as Cleaning or Returning, and unchanged in every
other outcome (Docked, Idle, Error, no data, or a raised comparison
error). -/
theorem shadow_flag_update_characterization (data : Dps) (flag : Bool) :
    (activity data flag).2 =
      (match (activity data flag).1 with
       | Except.ok (some VacuumActivity.PAUSED) => true
       | Except.ok (some VacuumActivity.CLEANING) => false
       | Except.ok (some VacuumActivity.RETURNING) => false
       | _ => flag) := by
  rcases activity_cases data flag with h | h | h | h | h | h | h | h <;> rw [h]

/-- C10: when DPS "6" holds an int ≥ 100, `activity` reports `ERROR`
before even looking at DPS "153" (vacuum.py:287-290), and `error_code`
returns the decimal string of that int (vacuum.py:421-429); for every
other shape of DPS "6" — absent, a smaller int, or a non-int —
`error_code` is `None`. -/
theorem error_code_precedence :
    (∀ (data : Dps) (flag : Bool) (n : Int),
      data.get? "6" = some (PyVal.vInt n) → 100 ≤ n →
        (activity data flag).1 = Except.ok (some VacuumActivity.ERROR) ∧
        error_code data = some (toString n)) ∧
    (∀ data : Dps,
      (∀ n : Int, data.get? "6" = some (PyVal.vInt n) → n < 100) →
        error_code data = none) := by
  constructor
  · intro data flag n hget hn
    have hne : data ≠ [] := by
      intro h
      rw [h] at hget
      exact Option.noConfusion hget
    have hD : data.getD "6" (.vInt 0) = PyVal.vInt n := by
      simp [Dps.getD, hget]
    have hguard : pyIsIntGE (data.getD "6" (.vInt 0)) 100 = true := by
      rw [hD]
      simpa [pyIsIntGE] using hn
    constructor
    · simp only [activity]
      rw [if_neg hne, if_pos hguard]
    · simp only [error_code]
      rw [if_neg hne, hget]
      simp [pyIsIntGE, hn, pyStr]
  · intro data hsmall
    simp only [error_code]
    split
    · rfl
    rcases hget : data.get? "6" with _ | v
    · rfl
    · cases v with
      | vInt n =>
        have := hsmall n hget
        simp [pyIsIntGE, not_le.mpr this]
      | vStr s => simp [pyIsIntGE]
      | vBytes b => simp [pyIsIntGE]

/-- Witness for C10: DPS "6" = 180 with a cleaning-looking DPS "153"
still reports `ERROR` and error code "180"; a non-int DPS "6" yields no
error code. -/
theorem error_code_precedence_witness :
    (activity [("6", PyVal.vInt 180), ("153", PyVal.vStr "AggO")] false).1
      = Except.ok (some VacuumActivity.ERROR) ∧
    error_code [("6", PyVal.vInt 180), ("153", PyVal.vStr "AggO")]
      = some "180" ∧
    error_code [("6", PyVal.vStr "x")] = none := by
  have h := error_code_precedence.1 [("6", PyVal.vInt 180), ("153", PyVal.vStr "AggO")]
    false 180 rfl (by norm_num)
  refine ⟨h.1, h.2, ?_⟩
  exact error_code_precedence.2 [("6", PyVal.vStr "x")]
    (by intro n hget; simp [Dps.get?] at hget)

/-! ## Device writes and the command handlers -/

/-- One call to `tuya_client.async_set`: the dictionary of DPS values
written. -/
abbrev WriteDict := List (String × String)

/-- The device transport: a write either succeeds (`none`) or raises a
transport error with a message (`some e`).  Reads (`async_request_refresh`)
and sleeps are side-effect-free and are not modelled. -/
abbrev Transport := WriteDict → Option String

/-- Run a sequence of writes in order; stop at the first failure.
Returns the writes actually performed (earlier successes are not rolled
back) and the error, if any. -/
def runWrites (T : Transport) : List WriteDict → List WriteDict × Option String
  | [] => ([], none)
  | w :: ws =>
    match T w with
    | some e => ([], some e)
    | none =>
      let r := runWrites T ws
      (w :: r.1, r.2)

/-- `S1_PRO_COMMANDS` (vacuum.py:45-50). -/
def S1_PRO_COMMANDS : String → Option String
  | "start" => some "AA=="
  | "cleaning" => some "AggO"
  | "pause" => some "AggN"
  | "return" => some "AggG"
  | _ => none

/-- The write sequence of `_send_command` (vacuum.py:451-480): the DPS
152 command itself, followed by one DPS 5 mode write when the command is
the start, pause, or return token.  The cleaning token `"AggO"` gets no
mode write.  Any exception is logged and re-raised. -/
def sendCommandWrites (c : String) : List WriteDict :=
  [[("152", c)]] ++
    (if c = "AA==" then [[("5", "smart")]]
     else if c = "AggN" then [[("5", "pause")]]
     else if c = "AggG" then [[("5", "charge")]]
     else [])

/-- Observable outcome of one intent handler: the device writes
performed, the exception propagated to the caller (`none` when the
handler returns normally), and the `_was_paused` shadow flag
afterwards. -/
structure IntentOutcome where
  writes : List WriteDict
  error : Option String
  was_paused : Bool
  deriving DecidableEq, Repr

/-- `async_turn_on` (vacuum.py:482-509): clear the shadow flag, send the
start command, then the cleaning command; any failure aborts the rest and
is re-raised. -/
def async_turn_on (T : Transport) : IntentOutcome :=
  let s1 := runWrites T (sendCommandWrites "AA==")
  match s1.2 with
  | some e => ⟨s1.1, some e, false⟩
  | none =>
    let s2 := runWrites T (sendCommandWrites "AggO")
    ⟨s1.1 ++ s2.1, s2.2, false⟩

/-- Does the decoded DPS 153 value look paused?  (vacuum.py:526-529:
`False` for a falsy value, else compare the decoded state with
`PAUSED`.) -/
def is_paused_by_dps153 (v : PyVal) : Bool :=
  v.truthy && decide ((decode_dps153_to_state v).1 = RobovacState.PAUSED)

/-- `async_start` (vacuum.py:516-548).  It first evaluates the
`activity` property — which itself may reassign the shadow flag — then
reads the (possibly updated) flag, the decoded DPS 153 state and the raw
DPS 152 echo, and either resumes with the single cleaning-command write
or falls through to the fresh-start sequence of `async_turn_on`.  A
`TypeError` escaping the `activity` property propagates before any
write. -/
def async_start (T : Transport) (data : Dps) (flag : Bool) : IntentOutcome :=
  let r := activity data flag
  match r.1 with
  | Except.error _ => ⟨[], some "TypeError", r.2⟩
  | Except.ok act =>
    if act = some VacuumActivity.PAUSED ∨ r.2 = true ∨
        is_paused_by_dps153 (data.getD "153" (.vStr "")) = true ∨
        data.getD "152" (.vStr "") = PyVal.vStr "AggN" then
      let s := runWrites T (sendCommandWrites "AggO")
      match s.2 with
      | some e => ⟨s.1, some e, r.2⟩
      | none => ⟨s.1, none, false⟩
    else
      async_turn_on T

/-- `async_pause` (vacuum.py:550-564): set the flag, send the pause
command; on failure log, reset the flag and swallow the exception (the
handler returns normally). -/
def async_pause (T : Transport) (_flag : Bool) : IntentOutcome :=
  let s := runWrites T (sendCommandWrites "AggN")
  match s.2 with
  | some _ => ⟨s.1, none, false⟩
  | none => ⟨s.1, none, true⟩

/-- `async_stop` (vacuum.py:566-569) simply delegates to `async_pause`. -/
def async_stop (T : Transport) (flag : Bool) : IntentOutcome :=
  async_pause T flag

/-- `async_return_to_base` (vacuum.py:571-584): clear the flag, send the
return command; on failure log and swallow the exception. -/
def async_return_to_base (T : Transport) (_flag : Bool) : IntentOutcome :=
  let s := runWrites T (sendCommandWrites "AggG")
  ⟨s.1, none, false⟩

/-- The `ValueError` message raised when no room mappings are configured
(vacuum.py:637-648). -/
def no_room_mappings_msg : String :=
  "No room mappings configured. Please add room mappings by:\n" ++
  "1. Go to Settings -> Devices & Services -> Eufy RoboVac S1 Pro\n" ++
  "2. Click \x27Configure\x27 on the integration\n" ++
  "3. Add your room mappings in JSON format\n" ++
  "\n" ++
  "To get DPS 173 values:\n" ++
  "1. Enable debug logging for custom_components.eufy_robovac_s1_pro\n" ++
  "2. Use the Eufy app to start cleaning a specific room\n" ++
  "3. Find the DPS 173 value in Home Assistant logs\n" ++
  "4. Add it to the room mappings configuration"

/-- `", ".join(room_dps173_map.keys())` with the `or "none"` fallback of
vacuum.py:651-654. -/
def available_rooms (mappings : List (String × String)) : String :=
  let joined := String.intercalate ", " (mappings.map Prod.fst)
  if joined = "" then "none" else joined

/-- The `ValueError` message raised when a room id is not configured
(vacuum.py:652-657). -/
def room_not_found_msg (rid : PyVal) (mappings : List (String × String)) : String :=
  "Room ID \x27" ++ pyStr rid ++ "\x27 not found in configured rooms. " ++
  "Available rooms: " ++ available_rooms mappings ++ ". " ++
  "Please add this room via Settings -> Devices & Services -> " ++
  "Eufy RoboVac S1 Pro -> Configure."

/-- Exact-string dictionary lookup (`str(room_id) not in room_dps173_map`
and `room_dps173_map[str(room_id)]`, vacuum.py:650-659): no
normalization, no case folding. -/
def dictLookup (k : String) : List (String × String) → Option String
  | [] => none
  | (a, v) :: rest => if a = k then some v else dictLookup k rest

/-- `_handle_clean_room_command` (vacuum.py:626-693).  `room_id = none`
models a missing/empty `params` dictionary.  All three `ValueError`s are
raised before any device write; on the happy path the handler writes DPS
173, clears the shadow flag, and runs the start and cleaning command
sequences, re-raising any transport failure. -/
def handle_clean_room (T : Transport) (room_id : Option PyVal)
    (mappings : List (String × String)) (flag : Bool) : IntentOutcome :=
  match room_id with
  | none => ⟨[], some "room_id parameter is required", flag⟩
  | some rid =>
    if mappings = [] then ⟨[], some no_room_mappings_msg, flag⟩
    else
      match dictLookup (pyStr rid) mappings with
      | none => ⟨[], some (room_not_found_msg rid mappings), flag⟩
      | some dps173 =>
        let s1 := runWrites T [[("173", dps173)]]
        match s1.2 with
        | some e => ⟨s1.1, some e, flag⟩
        | none =>
          let s2 := runWrites T (sendCommandWrites "AA==")
          match s2.2 with
          | some e => ⟨s1.1 ++ s2.1, some e, false⟩
          | none =>
            let s3 := runWrites T (sendCommandWrites "AggO")
            ⟨s1.1 ++ s2.1 ++ s3.1, s3.2, false⟩

/-- A transport on which every write succeeds. -/
def okTransport : Transport := fun _ => none

/-- C4 counterexample: the claim says a start issued while the shadow
flag is true performs exactly one resume write.  But `async_start` first
evaluates the `activity` property, and that poll can clear the flag: with
`_was_paused = True` and a DPS "152" echo of the cleaning token, the poll
classifies Cleaning, resets the flag, and `async_start` then runs the
full fresh-start sequence — three device writes, not one. -/
theorem start_with_shadow_flag_true_three_writes :
    (async_start okTransport [("152", PyVal.vStr "AggO")] true).writes
      = [[("152", "AA==")], [("5", "smart")], [("152", "AggO")]] ∧
    (async_start okTransport [("152", PyVal.vStr "AggO")] true).writes.length ≠ 1 := by
  refine ⟨rfl, by decide⟩

/-- C4 amended: the paused test of `async_start` is evaluated after the
`activity` poll, against the possibly updated shadow flag.  Whenever the
polled activity is Paused, or the post-poll flag is still true, or the
decoded DPS 153 state is Paused, or the raw DPS 152 echo equals the
legacy pause token, the handler performs exactly one device write — the
single cleaning/resume command, with no DPS 5 mode write and no
fresh-start sequence — and clears the shadow flag. -/
theorem start_resume_after_refresh_single_write
    (data : Dps) (flag flag1 : Bool) (act : Option VacuumActivity)
    (h : activity data flag = (Except.ok act, flag1))
    (hcond : act = some VacuumActivity.PAUSED ∨ flag1 = true ∨
      is_paused_by_dps153 (data.getD "153" (.vStr "")) = true ∨
      data.getD "152" (.vStr "") = PyVal.vStr "AggN") :
    async_start okTransport data flag = ⟨[[("152", "AggO")]], none, false⟩ := by
  unfold async_start
  rw [h]
  dsimp only
  rw [if_pos hcond]
  rfl

/-- Witness for C4 (amended): polling the pause token with the flag set
leaves the paused condition true, and start then sends exactly the one
cleaning command. -/
theorem start_resume_single_write_witness :
    async_start okTransport [("152", PyVal.vStr "AggN")] true
      = ⟨[[("152", "AggO")]], none, false⟩ :=
  start_resume_after_refresh_single_write [("152", PyVal.vStr "AggN")] true true
    (some VacuumActivity.PAUSED) rfl (Or.inl rfl)

/-- C9: `clean_room` with no mapping table fails with the (non-empty)
remediation `ValueError` of vacuum.py:637-648; with a table lacking the
id it fails with the `ValueError` of vacuum.py:650-657 whose text lists
the configured ids (`", ".join(...)`, with `"none"` when the join is
empty, exactly as the source's `or` fallback).  Both failures happen
before any device write.  The lookup key is `str(room_id)` compared
exactly — no normalization, no case folding, as the final concrete
conjunct shows. -/
theorem clean_room_error_cases (T : Transport) (rid : PyVal)
    (mappings : List (String × String)) (flag : Bool) :
    (handle_clean_room T (some rid) [] flag
        = ⟨[], some no_room_mappings_msg, flag⟩) ∧
    no_room_mappings_msg ≠ "" ∧
    (mappings ≠ [] → dictLookup (pyStr rid) mappings = none →
      handle_clean_room T (some rid) mappings flag
        = ⟨[], some (room_not_found_msg rid mappings), flag⟩) ∧
    room_not_found_msg rid mappings
      = "Room ID \x27" ++ pyStr rid ++ "\x27 not found in configured rooms. " ++
        "Available rooms: " ++ available_rooms mappings ++ ". " ++
        "Please add this room via Settings -> Devices & Services -> " ++
        "Eufy RoboVac S1 Pro -> Configure." ∧
    dictLookup "Kitchen" [("kitchen", "QQ==")] = none := by
  refine ⟨rfl, by decide, ?_, rfl, by decide⟩
  intro hne hlook
  unfold handle_clean_room
  dsimp only
  rw [if_neg hne, hlook]

/-- Witness for C9: a configured table without the requested id fails
with the room-not-found error and performs no write. -/
theorem clean_room_error_cases_witness :
    handle_clean_room okTransport (some (PyVal.vStr "living"))
        [("kitchen", "QQ==")] false
      = ⟨[], some (room_not_found_msg (PyVal.vStr "living") [("kitchen", "QQ==")]),
          false⟩ :=
  (clean_room_error_cases okTransport (PyVal.vStr "living")
    [("kitchen", "QQ==")] false).2.2.1 (by simp) rfl

/-! ## Fan speed maps -/

/-- `HA_TO_EUFY_FAN_SPEED_MAP` (vacuum.py:24-29): canonical level to the
(DPS 9, DPS 158) token pair. -/
def HA_TO_EUFY_FAN_SPEED_MAP : String → Option (String × String) := fun k =>
  if k = "Quiet" then some ("gentle", "Quiet")
  else if k = "Standard" then some ("normal", "Standard")
  else if k = "Turbo" then some ("strong", "Turbo")
  else if k = "Maximum" then some ("max", "Max")
  else none

/-- `EUFY_TO_HA_FAN_SPEED_MAP` (vacuum.py:32-42): device token back to
the canonical level, with the legacy `"middle"` fallback. -/
def EUFY_TO_HA_FAN_SPEED_MAP : String → Option String := fun k =>
  if k = "gentle" then some "Quiet"
  else if k = "normal" then some "Standard"
  else if k = "strong" then some "Turbo"
  else if k = "max" then some "Maximum"
  else if k = "Quiet" then some "Quiet"
  else if k = "Standard" then some "Standard"
  else if k = "Turbo" then some "Turbo"
  else if k = "Max" then some "Maximum"
  else if k = "middle" then some "Standard"
  else none

/-- The `fan_speed_list` property (vacuum.py:446-449). -/
def fan_speed_list : List String := ["Quiet", "Standard", "Turbo", "Maximum"]

/-- C7: for every canonical fan-speed level, translating to the device
token pair and back through the reverse table returns the same level for
both the DPS 9 and the DPS 158 token; the legacy token `"middle"`
resolves to `"Standard"`; and every token the reverse table accepts
resolves to one of the four canonical levels. -/
theorem fan_speed_roundtrip_and_reverse_table :
    (∀ level p1 p2, HA_TO_EUFY_FAN_SPEED_MAP level = some (p1, p2) →
      EUFY_TO_HA_FAN_SPEED_MAP p1 = some level ∧
      EUFY_TO_HA_FAN_SPEED_MAP p2 = some level) ∧
    EUFY_TO_HA_FAN_SPEED_MAP "middle" = some "Standard" ∧
    (∀ t r, EUFY_TO_HA_FAN_SPEED_MAP t = some r → r ∈ fan_speed_list) := by
  refine ⟨?_, rfl, ?_⟩
  · intro level p1 p2 h
    unfold HA_TO_EUFY_FAN_SPEED_MAP at h
    split_ifs at h <;>
      (injection h with h2
       injection h2 with ha hb
       subst_vars
       exact ⟨rfl, rfl⟩)
  · intro t r h
    unfold EUFY_TO_HA_FAN_SPEED_MAP at h
    split_ifs at h <;>
      (injection h with h2
       subst_vars
       decide)

/-- Witness for C7 at the Quiet level and its primary token. -/
theorem fan_speed_roundtrip_witness :
    EUFY_TO_HA_FAN_SPEED_MAP "gentle" = some "Quiet" ∧
    "Quiet" ∈ fan_speed_list :=
  ⟨(fan_speed_roundtrip_and_reverse_table.1 "Quiet" "gentle" "Quiet" rfl).1,
   fan_speed_roundtrip_and_reverse_table.2.2 "gentle" "Quiet"
     (fan_speed_roundtrip_and_reverse_table.1 "Quiet" "gentle" "Quiet" rfl).1⟩

/-! ## Transport failures -/

/-- Helper: the writes `runWrites` performs are an order-preserving
prefix of the intended sequence — a failure aborts the tail and nothing
is rolled back. -/
theorem runWrites_performed (T : Transport) (ws : List WriteDict) :
    ∃ rest, ws = (runWrites T ws).1 ++ rest := by
  induction ws with
  | nil => exact ⟨[], rfl⟩
  | cons w ws ih =>
    unfold runWrites
    rcases h : T w with _ | e
    · obtain ⟨rest, hrest⟩ := ih
      exact ⟨rest, by simp [h, ← hrest]⟩
    · exact ⟨w :: ws, by simp [h]⟩

/-- Helper: whatever the transport does, `async_pause` reports exactly
the writes the pause sequence managed to perform. -/
theorem async_pause_writes (T : Transport) (flag : Bool) :
    (async_pause T flag).writes = (runWrites T (sendCommandWrites "AggN")).1 := by
  unfold async_pause
  dsimp only
  split <;> rfl

/-- C6 counterexample: the claim says a device write failure propagates
unchanged to the intent caller for every intent.  `async_pause`
(vacuum.py:550-564) instead catches the exception, logs it, resets the
shadow flag and returns normally: on a transport that rejects every
write, the pause intent reports no error at all. -/
theorem pause_swallows_transport_failure :
    async_pause (fun _ => some "device write failed") true
      = ⟨[], none, false⟩ ∧
    (async_pause (fun _ => some "device write failed") true).error
      ≠ some "device write failed" := by
  refine ⟨rfl, by decide⟩

/-- C6 amended: a device write failure always aborts the remaining steps
of the intent's sequence, with earlier writes not rolled back; but only
`start` (both paths) and `clean_room` re-raise the transport failure
unchanged to the caller — `pause`, `stop` and `return_to_base` catch it,
log it and return normally (`pause` additionally resets the shadow
flag). -/
theorem transport_failure_per_intent (e : String) (flag : Bool) (data : Dps)
    (rid : PyVal) (mappings : List (String × String)) (v : String) :
    (async_pause (fun _ => some e) flag = ⟨[], none, false⟩) ∧
    (async_stop (fun _ => some e) flag = ⟨[], none, false⟩) ∧
    (async_return_to_base (fun _ => some e) flag = ⟨[], none, false⟩) ∧
    ((activity data flag).1 ≠ Except.error () →
      (async_start (fun _ => some e) data flag).error = some e ∧
      (async_start (fun _ => some e) data flag).writes = []) ∧
    (dictLookup (pyStr rid) mappings = some v →
      handle_clean_room (fun _ => some e) (some rid) mappings flag
        = ⟨[], some e, flag⟩) ∧
    (∀ T : Transport, ∃ rest,
      sendCommandWrites "AggN" = (async_pause T flag).writes ++ rest) ∧
    (∀ T : Transport, ∃ rest,
      sendCommandWrites "AggG" = (async_return_to_base T flag).writes ++ rest) := by
  refine ⟨rfl, rfl, rfl, ?_, ?_, ?_, ?_⟩
  · intro hne
    rcases activity_cases data flag with h | h | h | h | h | h | h | h <;>
      first
        | (unfold async_start
           rw [h]
           dsimp only
           split
           · exact ⟨rfl, rfl⟩
           · exact ⟨rfl, rfl⟩)
        | (rw [h] at hne; exact absurd rfl hne)
  · intro hlook
    cases mappings with
    | nil => exact absurd hlook (by simp [dictLookup])
    | cons p rest =>
      unfold handle_clean_room
      dsimp only
      rw [if_neg (by simp), hlook]
      rfl
  · intro T
    rw [async_pause_writes]
    exact runWrites_performed T _
  · intro T
    exact runWrites_performed T _

/-- Witness for C6 (amended): with a configured room and an
always-failing transport the clean-room intent performs no write and
re-raises the transport error unchanged. -/
theorem transport_failure_per_intent_witness :
    handle_clean_room (fun _ => some "boom") (some (PyVal.vStr "kitchen"))
        [("kitchen", "QQ==")] true
      = ⟨[], some "boom", true⟩ :=
  (transport_failure_per_intent "boom" true [] (PyVal.vStr "kitchen")
    [("kitchen", "QQ==")] "QQ==").2.2.2.2.1 rfl

end EufyS1Pro
